import Mathlib

/-!
TwentyTwentyTwentyReminder: a shallow embedding of `src/main.cpp`

The development follows the source file top to bottom:

* the `QString` operations used by the configuration reader,
* `AppConfig` with `getAlignment` and `load`,
* `ImageUtils.getRandomPixmap`,
* `ReminderOverlay` (constructor, `startShow`, `startFadeOut`, signal delivery),
* `AppController` (`showAllReminders`, `reloadConfig`, `startTimer`, tray actions).

Qt objects are modelled by the part of their state the program drives:
a `QTimer` is its `active` flag, its interval, its single-shot flag and the
time of its last `start`; a `QPropertyAnimation` is its running flag, its
duration and its start and end values; a signal with connected lambdas is a
list of slots, run when the signal is emitted: by the event loop when a
running animation reaches its end, or inside `start()` for an animation of
duration `0`. A timer started with a negative interval is refused.
C++ `int` is `Int` with explicit wrap-around to 32 bits on multiplication.
-/

namespace Reminder

/-! ## QString -/

/-- A `QString` is modelled as its list of characters. -/
abbrev QString := List Char

/-- A string literal of the source as a `QString`. -/
def qs (s : String) : QString := s.toList

/-- Embedding of `QChar::isSpace`: the ASCII white space `\t \n \v \f \r` and space, NEL,
the no-break space, and the Unicode separator categories Zs, Zl, Zp. -/
def isSpace (c : Char) : Bool :=
  let n := c.toNat
  n == 0x20 || (0x09 ≤ n && n ≤ 0x0d) || n == 0x85 || n == 0xa0 || n == 0x1680 ||
  (0x2000 ≤ n && n ≤ 0x200a) || n == 0x2028 || n == 0x2029 || n == 0x202f ||
  n == 0x205f || n == 0x3000

/-- Embedding of `QString::trimmed`: white space removed from both ends. -/
def trimmed (s : QString) : QString :=
  ((s.dropWhile isSpace).reverse.dropWhile isSpace).reverse

/-- Embedding of `QString::toLower`. Only ASCII letters are mapped: every comparison the
program makes after `toLower` is against an ASCII literal, and no other
character lower-cases to a letter of those literals. -/
def toLower (s : QString) : QString := s.map Char.toLower

/-- Embedding of `QString::startsWith(const QString &)`. -/
def startsWith (s p : QString) : Bool := p.isPrefixOf s

/-- Embedding of `QString::endsWith(const QString &)`. -/
def endsWith (s p : QString) : Bool := p.reverse.isPrefixOf s.reverse

/-- Embedding of `QString::indexOf(QChar)`: the first position of `c`, or `-1`. -/
def indexOf : QString → Char → Int
  | [], _ => -1
  | x :: xs, c =>
    if x = c then 0
    else
      let r := indexOf xs c
      if r = -1 then -1 else r + 1

/-- Embedding of `QString::left(n)`: the whole string when `n` is negative or too large. -/
def left (s : QString) (n : Int) : QString :=
  if n < 0 then s else s.take n.toNat

/-- Embedding of `QString::mid(pos, n)`: `n` characters from `pos`; everything from `pos`
when `n` is negative (the default `-1`) or exceeds what is left. -/
def mid (s : QString) (pos : Int) (n : Int := -1) : QString :=
  let r := s.drop pos.toNat
  if n < 0 then r else r.take n.toNat

/-- Is the character an ASCII decimal digit. -/
def isDigit (c : Char) : Bool := 48 ≤ c.toNat && c.toNat ≤ 57

/-- Value of a run of decimal digits. -/
def digitsValue (ds : List Char) : Nat :=
  ds.foldl (fun a d => 10 * a + (d.toNat - 48)) 0

/-- The integer a text denotes for `QString::toInt` (base 10, C locale):
optional surrounding white space, an optional sign, at least one digit, and a
value that fits a 32-bit `int`; `none` when the conversion fails. -/
def parseInt (s : QString) : Option Int :=
  let t := trimmed s
  let neg : Bool := match t with
    | c :: _ => c == '-'
    | [] => false
  let ds : List Char := match t with
    | c :: r => if c == '-' || c == '+' then r else t
    | [] => []
  if ds.isEmpty || !ds.all isDigit then none
  else
    let v : Int := if neg then -(digitsValue ds : Int) else (digitsValue ds : Int)
    if -2147483648 ≤ v ∧ v ≤ 2147483647 then some v else none

/-- Embedding of `QString::toInt()`: the value, or `0` if the conversion fails. -/
def toInt (s : QString) : Int := (parseInt s).getD 0

/-- The lines `QTextStream::readLine` returns until `atEnd`, end-of-line
characters removed. -/
def readLines : QString → List QString
  | [] => []
  | c :: cs =>
    if c = '\n' then [] :: readLines cs
    else
      match readLines cs with
      | [] => [[c]]
      | l :: ls => (c :: l) :: ls

/-! ## 32-bit `int` arithmetic -/

/-- Wrap an integer to the range of a 32-bit two's-complement `int`. -/
def wrapInt32 (x : Int) : Int := (x + 2147483648) % 4294967296 - 2147483648

/-- C++ `int * int` on a 32-bit two's-complement machine. -/
def intMul (a b : Int) : Int := wrapInt32 (a * b)

/-! ## Qt::Alignment -/

/-- Embedding of `Qt::Alignment` flags as their bit masks. -/
abbrev Alignment := Nat

def AlignLeft : Alignment := 0x0001
def AlignRight : Alignment := 0x0002
def AlignHCenter : Alignment := 0x0004
def AlignTop : Alignment := 0x0020
def AlignBottom : Alignment := 0x0040
def AlignVCenter : Alignment := 0x0080
def AlignCenter : Alignment := AlignVCenter ||| AlignHCenter

/-! ## AppConfig -/

/-- Embedding of `struct AppConfig` with its default member initialisers. -/
structure AppConfig where
  intervalMinutes : Int := 20
  displaySeconds : Int := 20
  fadeDurationMs : Int := 1000
  imageSource : QString := []
  textColor : QString := qs "#FFFFFF"
  fontSize : Int := 100
  position : QString := qs "Center"
  showMask : Bool := true
deriving DecidableEq, Repr

namespace AppConfig

/-- Embedding of `AppConfig::getAlignment`. -/
def getAlignment (c : AppConfig) : Alignment :=
  let pos := toLower c.position
  if pos = qs "topleft" then AlignTop ||| AlignLeft
  else if pos = qs "topcenter" then AlignTop ||| AlignHCenter
  else if pos = qs "topright" then AlignTop ||| AlignRight
  else if pos = qs "bottomleft" then AlignBottom ||| AlignLeft
  else if pos = qs "bottomcenter" then AlignBottom ||| AlignHCenter
  else if pos = qs "bottomright" then AlignBottom ||| AlignRight
  else AlignCenter

/-- The `if … else if …` chain of `load` that stores one `key=value` pair. -/
def assign (c : AppConfig) (key value : QString) : AppConfig :=
  if key = qs "interval_minutes" then { c with intervalMinutes := toInt value }
  else if key = qs "display_seconds" then { c with displaySeconds := toInt value }
  else if key = qs "fade_ms" then { c with fadeDurationMs := toInt value }
  else if key = qs "image_source" then { c with imageSource := value }
  else if key = qs "text_color" then { c with textColor := value }
  else if key = qs "font_size" then { c with fontSize := toInt value }
  else if key = qs "position" then { c with position := value }
  else if key = qs "show_mask" then { c with showMask := (toLower value == qs "true") }
  else c

/-- The key and the value the loop body of `load` extracts from one line
read from the file, or `none` when the line is skipped (`continue`). -/
def splitLine (raw : QString) : Option (QString × QString) :=
  let line := trimmed raw
  if line.isEmpty || startsWith line (qs ";") || startsWith line (qs "#")
      || startsWith line (qs "[") then none
  else
    let equalPos := indexOf line '='
    if equalPos = -1 then none
    else
      let key := trimmed (left line equalPos)
      let value := trimmed (mid line (equalPos + 1))
      let value :=
        if startsWith value [Char.ofNat 34] && endsWith value [Char.ofNat 34] then
          mid value 1 ((value.length : Int) - 2)
        else value
      some (key, value)

/-- One iteration of the `while (!in.atEnd())` loop of `load`. -/
def loadLine (c : AppConfig) (raw : QString) : AppConfig :=
  match splitLine raw with
  | none => c
  | some (key, value) => c.assign key value

/-- The whole read loop of `load` over the lines of the file. -/
def loadLines (c : AppConfig) (lines : List QString) : AppConfig :=
  lines.foldl loadLine c

end AppConfig

/-- The configuration file at `configPath` as `load` sees it: absent (and
then whether `open(WriteOnly)` can create it), or present (and then whether
`open(ReadOnly)` succeeds) with its text. -/
inductive ConfigFile where
  | missing (creatable : Bool)
  | present (readable : Bool) (content : QString)
deriving DecidableEq, Repr

/-- The text `load` writes into a newly created configuration file. -/
def defaultFileText : QString :=
  qs "[General]\n" ++ qs "interval_minutes=20\n" ++ qs "display_seconds=20\n" ++
  qs "fade_ms=1000\n" ++ qs "image_source=/home/\n" ++ qs "\n[Theme]\n" ++
  qs "text_color=#FFFFFF\n" ++ qs "font_size=100\n" ++ qs "position=Center\n" ++
  qs "show_mask=true\n"

/-- Embedding of `AppConfig::load`: returns the configuration after the call and the file
after the call. -/
def AppConfig.load (c : AppConfig) : ConfigFile → AppConfig × ConfigFile
  | .missing creatable =>
    if creatable then (c, .present true defaultFileText) else (c, .missing creatable)
  | .present readable content =>
    if readable then (c.loadLines (readLines content), .present readable content)
    else (c, .present readable content)

/-! ## ImageUtils -/

/-- What `ImageUtils::getRandomPixmap` asks of the file system and of the
global random generator. -/
structure ImageEnv where
  isDir : QString → Bool
  isFile : QString → Bool
  cleanPath : QString → QString
  entryInfoList : QString → List QString
  fileExists : QString → Bool
  bounded : Nat → Nat

/-- A `QPixmap`: null, or loaded from a path. -/
inductive QPixmap where
  | null
  | fromFile (path : QString)
deriving DecidableEq, Repr

/-- Embedding of `ImageUtils::getRandomPixmap`. -/
def ImageUtils.getRandomPixmap (env : ImageEnv) (sourcePath : QString) : QPixmap :=
  if sourcePath.isEmpty then .null
  else
    let cleanPath := env.cleanPath sourcePath
    let finalPath : QString :=
      if env.isDir sourcePath then
        let list := env.entryInfoList cleanPath
        if !list.isEmpty then list.getD (env.bounded list.length) [] else []
      else if env.isFile sourcePath then cleanPath
      else []
    if finalPath.isEmpty || !env.fileExists finalPath then .null else .fromFile finalPath

/-! ## Qt objects driven by the program -/

/-- A `QTimer`: whether it is running, its interval in milliseconds, whether
it is single-shot, and the time of the `start` (or of the last timeout of a
repeating timer) from which its countdown runs. -/
structure QTimer where
  active : Bool := false
  interval : Int := 0
  singleShot : Bool := false
  startedAt : Nat := 0
deriving DecidableEq, Repr

namespace QTimer

/-- Embedding of `QTimer::stop`. -/
def stop (t : QTimer) : QTimer := { t with active := false }

/-- Embedding of `QTimer::start(int msec)` called at time `now`: the interval
is stored and a running timer is stopped; the timer is then started, unless
the interval is negative, which Qt refuses (the timer stays stopped). -/
def start (t : QTimer) (msec : Int) (now : Nat) : QTimer :=
  if msec < 0 then { t with active := false, interval := msec }
  else { t with active := true, interval := msec, startedAt := now }

/-- Embedding of `QTimer::setSingleShot`. -/
def setSingleShot (t : QTimer) (b : Bool) : QTimer := { t with singleShot := b }

/-- The timer itself at a timeout: a single-shot timer stops, a repeating
one starts its next period. -/
def timeout (t : QTimer) (now : Nat) : QTimer :=
  if t.singleShot then { t with active := false } else { t with startedAt := now }

end QTimer

/-- A `QPropertyAnimation` on `paintOpacity`: the opacity end points `0.0` and
`1.0` are written `0` and `1`; the interpolation between them is not modelled. -/
structure QPropertyAnimation where
  duration : Int := 250
  startValue : Int := 0
  endValue : Int := 0
  running : Bool := false
deriving DecidableEq, Repr

namespace QPropertyAnimation

/-- Embedding of `setDuration`: a negative duration is refused and the
duration stays what it was. -/
def setDuration (a : QPropertyAnimation) (ms : Int) : QPropertyAnimation :=
  if ms < 0 then a else { a with duration := ms }

def stop (a : QPropertyAnimation) : QPropertyAnimation := { a with running := false }

def setStartValue (a : QPropertyAnimation) (v : Int) : QPropertyAnimation :=
  { a with startValue := v }

def setEndValue (a : QPropertyAnimation) (v : Int) : QPropertyAnimation :=
  { a with endValue := v }

/-- Embedding of `QAbstractAnimation::start`: nothing happens to a running
animation; a stopped one starts running, except that with duration `0` it is
at its end at once, stops again and emits `finished` inside the call. The
result is the animation and whether `finished` was emitted inside `start`. -/
def start (a : QPropertyAnimation) : QPropertyAnimation × Bool :=
  if a.running then (a, false)
  else if a.duration = 0 then ({ a with running := false }, true)
  else ({ a with running := true }, false)

end QPropertyAnimation

structure QRect where
  x : Int
  y : Int
  width : Int
  height : Int
deriving DecidableEq, Repr

/-- A display as `QGuiApplication::screens()` lists it. -/
structure QScreen where
  id : Nat
  geometry : QRect
deriving DecidableEq, Repr

/-! ## ReminderOverlay -/

/-- The two lambdas the overlay connects to `QPropertyAnimation::finished`:
the one of `startShow` and the one of `startFadeOut`. -/
inductive FinishedSlot where
  | holdLambda
  | closeLambda
deriving DecidableEq, Repr

/-- Embedding of `class ReminderOverlay`. `finishedSlots` are the connections of
`m_fadeAnimation`'s `finished` signal, `closed` records `close()` (the widget
has `WA_DeleteOnClose`). -/
structure ReminderOverlay where
  m_config : AppConfig
  m_bgPixmap : QPixmap
  screen : Option QScreen
  geometry : Option QRect
  m_clockTimer : QTimer
  m_hideTimer : QTimer
  m_fadeAnimation : QPropertyAnimation
  m_currentOpacity : Int
  finishedSlots : List FinishedSlot
  fullScreen : Bool
  closed : Bool
deriving DecidableEq, Repr

namespace ReminderOverlay

/-- The constructor of `ReminderOverlay`, run at time `now`. -/
def new (config : AppConfig) (pixmap : QPixmap) (screen : Option QScreen) (now : Nat) :
    ReminderOverlay :=
  { m_config := config
    m_bgPixmap := pixmap
    screen := screen
    geometry := screen.map (fun sc => sc.geometry)
    m_clockTimer := ({} : QTimer).start 1000 now
    m_hideTimer := ({} : QTimer).setSingleShot true
    m_fadeAnimation := ({} : QPropertyAnimation).setDuration config.fadeDurationMs
    m_currentOpacity := 0
    finishedSlots := []
    fullScreen := false
    closed := false }

/-- The body of a lambda connected to `finished`, run at time `now`. -/
def runSlot (o : ReminderOverlay) (now : Nat) : FinishedSlot → ReminderOverlay
  | .holdLambda =>
    { o with
      finishedSlots := []
      m_hideTimer := o.m_hideTimer.start (intMul o.m_config.displaySeconds 1000) now }
  | .closeLambda =>
    { o with m_clockTimer := o.m_clockTimer.stop, closed := true }

/-- Emission of `finished`: the slots connected when the emission starts run
in connection order, one disconnected meanwhile is skipped. -/
def emitFinished (o : ReminderOverlay) (now : Nat) : ReminderOverlay :=
  o.finishedSlots.foldl
    (fun acc sl => if sl ∈ acc.finishedSlots then acc.runSlot now sl else acc) o

/-- The call `m_fadeAnimation->start()` at time `now`: when the animation
finishes inside `start` (duration `0`), the opacity is at the end value and
the slots connected at that moment run before the call returns. -/
def startFade (o : ReminderOverlay) (now : Nat) : ReminderOverlay :=
  if o.m_fadeAnimation.start.2 then
    emitFinished
      { o with
        m_fadeAnimation := o.m_fadeAnimation.start.1
        m_currentOpacity := o.m_fadeAnimation.endValue } now
  else { o with m_fadeAnimation := o.m_fadeAnimation.start.1 }

/-- Embedding of `ReminderOverlay::startShow`, called at time `now`: the
lambda is connected after `start()` has returned. -/
def startShow (o : ReminderOverlay) (now : Nat) : ReminderOverlay :=
  let o1 : ReminderOverlay :=
    { o with
      fullScreen := true
      m_fadeAnimation := (o.m_fadeAnimation.stop.setStartValue 0).setEndValue 1 }
  let o2 := o1.startFade now
  { o2 with finishedSlots := o2.finishedSlots ++ [.holdLambda] }

/-- Embedding of `ReminderOverlay::startFadeOut`, called at time `now`: the
lambda is connected after `start()` has returned. -/
def startFadeOut (o : ReminderOverlay) (now : Nat) : ReminderOverlay :=
  let o1 : ReminderOverlay :=
    { o with m_fadeAnimation := (o.m_fadeAnimation.stop.setStartValue 1).setEndValue 0 }
  let o2 := o1.startFade now
  { o2 with finishedSlots := o2.finishedSlots ++ [.closeLambda] }

/-- What the event loop can deliver to an overlay. -/
inductive Event where
  | clockTimeout
  | hideTimeout
  | fadeFinished
deriving DecidableEq, Repr

/-- Delivery of one event at time `now`. An event of a stopped timer, of a
stopped animation or of a closed (deleted) overlay does not occur. -/
def deliver (o : ReminderOverlay) (now : Nat) : Event → ReminderOverlay
  | .clockTimeout =>
    if !o.closed && o.m_clockTimer.active then
      { o with m_clockTimer := o.m_clockTimer.timeout now }
    else o
  | .hideTimeout =>
    if !o.closed && o.m_hideTimer.active then
      startFadeOut { o with m_hideTimer := o.m_hideTimer.timeout now } now
    else o
  | .fadeFinished =>
    if !o.closed && o.m_fadeAnimation.running then
      emitFinished
        { o with
          m_fadeAnimation := o.m_fadeAnimation.stop
          m_currentOpacity := o.m_fadeAnimation.endValue } now
    else o

/-- A run of the event loop: events with their delivery times. -/
def run (o : ReminderOverlay) (es : List (Nat × Event)) : ReminderOverlay :=
  es.foldl (fun acc e => acc.deliver e.1 e.2) o

/-- The four states of the overlay life cycle. -/
inductive Phase where
  | FadingIn
  | Holding
  | FadingOut
  | Closed
deriving DecidableEq, Repr

/-- The life-cycle state an overlay is in: closed; else fading towards the
end value of the running animation; else (animation at rest at full
opacity) holding. -/
def phase (o : ReminderOverlay) : Phase :=
  if o.closed then .Closed
  else if o.m_fadeAnimation.running then
    (if o.m_fadeAnimation.endValue = 1 then .FadingIn else .FadingOut)
  else .Holding

end ReminderOverlay

/-! ## AppController -/

/-- Embedding of `class AppController`: `m_schedulerTimer` is a pointer, null until the
constructor allocates the timer; `m_trayIcon` likewise. -/
structure AppController where
  m_configPath : QString
  m_config : AppConfig := {}
  m_schedulerTimer : Option QTimer := none
  m_trayIcon : Bool := false
deriving DecidableEq, Repr

namespace AppController

/-- Embedding of `AppController::startTimer`, called at time `now`. -/
def startTimer (s : AppController) (now : Nat) : AppController :=
  match s.m_schedulerTimer with
  | none => s
  | some t =>
    let t := t.stop
    if s.m_config.intervalMinutes > 0 then
      { s with
        m_schedulerTimer :=
          some (t.start (intMul (intMul s.m_config.intervalMinutes 60) 1000) now) }
    else { s with m_schedulerTimer := some t }

/-- Embedding of `AppController::reloadConfig`. -/
def reloadConfig (s : AppController) (file : ConfigFile) (now : Nat) :
    AppController × ConfigFile :=
  let r := s.m_config.load file
  (startTimer { s with m_config := r.1 } now, r.2)

/-- What one display cycle leaves behind: the controller, the configuration
file, and the overlays it created, in the order of the screens. -/
structure Cycle where
  controller : AppController
  file : ConfigFile
  overlays : List ReminderOverlay

/-- Embedding of `AppController::showAllReminders`. -/
def showAllReminders (s : AppController) (file : ConfigFile) (env : ImageEnv)
    (screens : List QScreen) (now : Nat) : Cycle :=
  let r := s.m_config.load file
  let currentPix := ImageUtils.getRandomPixmap env r.1.imageSource
  { controller := { s with m_config := r.1 }
    file := r.2
    overlays := screens.map fun screen =>
      (ReminderOverlay.new r.1 currentPix (some screen) now).startShow now }

/-- Embedding of `AppController::setupTray`. -/
def setupTray (s : AppController) (trayAvailable : Bool) : AppController :=
  if !trayAvailable then s else { s with m_trayIcon := true }

/-- The constructor of `AppController`. -/
def new (configPath : QString) (file : ConfigFile) (trayAvailable : Bool) (now : Nat) :
    AppController × ConfigFile :=
  let s : AppController := { m_configPath := configPath, m_schedulerTimer := some {} }
  let r := s.reloadConfig file now
  (r.1.setupTray trayAvailable, r.2)

/-- The entries of the tray menu. -/
inductive TrayAction where
  | showNow
  | reload
  | quit
deriving DecidableEq, Repr

/-- The slot each tray action is connected to in `setupTray`. -/
def triggered (s : AppController) (a : TrayAction) (file : ConfigFile) (env : ImageEnv)
    (screens : List QScreen) (now : Nat) : Cycle :=
  match a with
  | .showNow => s.showAllReminders file env screens now
  | .reload =>
    let r := s.reloadConfig file now
    { controller := r.1, file := r.2, overlays := [] }
  | .quit => { controller := s, file := file, overlays := [] }

/-- The `timeout` of `m_schedulerTimer`, connected to `showAllReminders` in
the constructor: the repeating timer starts its next period and the slot runs. -/
def schedulerTimeout (s : AppController) (file : ConfigFile) (env : ImageEnv)
    (screens : List QScreen) (now : Nat) : Cycle :=
  showAllReminders { s with m_schedulerTimer := s.m_schedulerTimer.map (·.timeout now) }
    file env screens now

/-- One firing of the display cycle as the event loop delivers it: manual
(tray action) or by the scheduler timer, with the file, the images and the
screens found at that moment. -/
structure Firing where
  byTimer : Bool
  file : ConfigFile
  env : ImageEnv
  screens : List QScreen
  now : Nat

/-- The controller after one firing. -/
def fire (s : AppController) (f : Firing) : AppController :=
  if f.byTimer then (s.schedulerTimeout f.file f.env f.screens f.now).controller
  else (s.triggered .showNow f.file f.env f.screens f.now).controller

/-- The controller after a sequence of firings. -/
def fireAll (s : AppController) (fs : List Firing) : AppController :=
  fs.foldl fire s

end AppController

/-! ## Definitions used to state the properties -/

/-- Case-insensitive equality of two strings, character by character. -/
def caseInsensitiveEq : QString → QString → Bool
  | [], [] => true
  | a :: as, b :: bs => a.toLower == b.toLower && caseInsensitiveEq as bs
  | _, _ => false

/-- The six position names with the alignment pair each one stands for. -/
def positionTable : List (QString × Alignment) :=
  [ (qs "TopLeft", AlignTop ||| AlignLeft),
    (qs "TopCenter", AlignTop ||| AlignHCenter),
    (qs "TopRight", AlignTop ||| AlignRight),
    (qs "BottomLeft", AlignBottom ||| AlignLeft),
    (qs "BottomCenter", AlignBottom ||| AlignHCenter),
    (qs "BottomRight", AlignBottom ||| AlignRight) ]

/-- The seven alignments a position can resolve to. -/
def validAlignments : List Alignment :=
  AlignCenter :: positionTable.map (fun e => e.2)

/-- The effect of a run of configuration lines, as the value each field is
overwritten with (`none`: the field is left alone). -/
structure Update where
  intervalMinutes : Option Int := none
  displaySeconds : Option Int := none
  fadeDurationMs : Option Int := none
  imageSource : Option QString := none
  textColor : Option QString := none
  fontSize : Option Int := none
  position : Option QString := none
  showMask : Option Bool := none
deriving DecidableEq, Repr

namespace Update

/-- Overwrite the fields of a configuration the update names. -/
def apply (u : Update) (c : AppConfig) : AppConfig :=
  { intervalMinutes := u.intervalMinutes.getD c.intervalMinutes
    displaySeconds := u.displaySeconds.getD c.displaySeconds
    fadeDurationMs := u.fadeDurationMs.getD c.fadeDurationMs
    imageSource := u.imageSource.getD c.imageSource
    textColor := u.textColor.getD c.textColor
    fontSize := u.fontSize.getD c.fontSize
    position := u.position.getD c.position
    showMask := u.showMask.getD c.showMask }

/-- First `u`, then `v`: the later assignment of a field wins. -/
def andThen (u v : Update) : Update :=
  { intervalMinutes := v.intervalMinutes.orElse fun _ => u.intervalMinutes
    displaySeconds := v.displaySeconds.orElse fun _ => u.displaySeconds
    fadeDurationMs := v.fadeDurationMs.orElse fun _ => u.fadeDurationMs
    imageSource := v.imageSource.orElse fun _ => u.imageSource
    textColor := v.textColor.orElse fun _ => u.textColor
    fontSize := v.fontSize.orElse fun _ => u.fontSize
    position := v.position.orElse fun _ => u.position
    showMask := v.showMask.orElse fun _ => u.showMask }

/-- The update one `key=value` pair makes. -/
def ofPair (key value : QString) : Update :=
  if key = qs "interval_minutes" then { intervalMinutes := some (toInt value) }
  else if key = qs "display_seconds" then { displaySeconds := some (toInt value) }
  else if key = qs "fade_ms" then { fadeDurationMs := some (toInt value) }
  else if key = qs "image_source" then { imageSource := some value }
  else if key = qs "text_color" then { textColor := some value }
  else if key = qs "font_size" then { fontSize := some (toInt value) }
  else if key = qs "position" then { position := some value }
  else if key = qs "show_mask" then { showMask := some (toLower value == qs "true") }
  else {}

/-- The update one line of the file makes. -/
def ofLine (raw : QString) : Update :=
  match AppConfig.splitLine raw with
  | none => {}
  | some (key, value) => ofPair key value

/-- The update a list of lines makes, read in order. -/
def ofLines (lines : List QString) : Update :=
  lines.foldl (fun u l => u.andThen (ofLine l)) {}

end Update

/-- The shape of an overlay in each state of its life cycle, for an
animation of non-zero duration and a hold interval the timer accepts: which
lambda is connected to `finished`, whether the hold timer runs and with what
interval, and whether the clock tick runs. -/
def ReminderOverlay.Shaped (o : ReminderOverlay) : Prop :=
  o.m_fadeAnimation.duration ≠ 0 ∧ 0 ≤ intMul o.m_config.displaySeconds 1000 ∧
  ((o.closed = false ∧ o.m_fadeAnimation.running = true ∧ o.m_fadeAnimation.endValue = 1 ∧
    o.finishedSlots = [.holdLambda] ∧ o.m_hideTimer.active = false ∧
    o.m_hideTimer.singleShot = true ∧ o.m_clockTimer.active = true ∧
    o.m_clockTimer.singleShot = false) ∨
  (o.closed = false ∧ o.m_fadeAnimation.running = false ∧ o.m_fadeAnimation.endValue = 1 ∧
    o.finishedSlots = [] ∧ o.m_hideTimer.active = true ∧
    o.m_hideTimer.singleShot = true ∧
    o.m_hideTimer.interval = intMul o.m_config.displaySeconds 1000 ∧
    o.m_clockTimer.active = true ∧ o.m_clockTimer.singleShot = false) ∨
  (o.closed = false ∧ o.m_fadeAnimation.running = true ∧ o.m_fadeAnimation.endValue = 0 ∧
    o.finishedSlots = [.closeLambda] ∧ o.m_hideTimer.active = false ∧
    o.m_clockTimer.active = true ∧ o.m_clockTimer.singleShot = false) ∨
  (o.closed = true ∧ o.m_clockTimer.active = false))

/-- The shape of an overlay whose fade-in finished inside `start()`, before
the lambda of `startShow` was connected: at full opacity, the animation at
rest, the lambda connected but never run, the hold timer not running. -/
def ReminderOverlay.Stuck (o : ReminderOverlay) : Prop :=
  o.closed = false ∧ o.m_fadeAnimation.running = false ∧ o.m_currentOpacity = 1 ∧
  o.finishedSlots = [.holdLambda] ∧ o.m_hideTimer.active = false ∧
  o.fullScreen = true

/-- An image environment with no files at all. -/
def emptyImageEnv : ImageEnv :=
  { isDir := fun _ => false
    isFile := fun _ => false
    cleanPath := fun p => p
    entryInfoList := fun _ => []
    fileExists := fun _ => false
    bounded := fun _ => 0 }

/-! ## Lemmas on the string operations and on `load` -/

theorem caseInsensitiveEq_iff (a b : QString) :
    caseInsensitiveEq a b = true ↔ toLower a = toLower b := by
  induction a generalizing b with
  | nil => cases b <;> simp [caseInsensitiveEq, toLower]
  | cons x xs ih =>
    cases b with
    | nil => simp [caseInsensitiveEq, toLower]
    | cons y ys =>
      have := ih ys
      simp only [toLower] at this
      simp [caseInsensitiveEq, toLower, this]

theorem assign_eq_apply (c : AppConfig) (key value : QString) :
    c.assign key value = (Update.ofPair key value).apply c := by
  unfold AppConfig.assign Update.ofPair
  split_ifs <;> rfl

theorem loadLine_eq_apply (c : AppConfig) (raw : QString) :
    c.loadLine raw = (Update.ofLine raw).apply c := by
  unfold AppConfig.loadLine Update.ofLine
  cases AppConfig.splitLine raw with
  | none => rfl
  | some kv => obtain ⟨k, v⟩ := kv; exact assign_eq_apply c k v

theorem apply_andThen (u v : Update) (c : AppConfig) :
    (u.andThen v).apply c = v.apply (u.apply c) := by
  obtain ⟨a1, a2, a3, a4, a5, a6, a7, a8⟩ := v
  cases a1 <;> cases a2 <;> cases a3 <;> cases a4 <;> cases a5 <;> cases a6 <;>
    cases a7 <;> cases a8 <;> rfl

theorem foldl_loadLine_apply (lines : List QString) (u : Update) (c : AppConfig) :
    lines.foldl AppConfig.loadLine (u.apply c) =
      (lines.foldl (fun u l => u.andThen (Update.ofLine l)) u).apply c := by
  induction lines generalizing u with
  | nil => rfl
  | cons l ls ih =>
    simp only [List.foldl_cons]
    rw [loadLine_eq_apply, ← apply_andThen, ih]

theorem apply_empty (c : AppConfig) : ({} : Update).apply c = c := rfl

theorem loadLines_eq_apply (c : AppConfig) (lines : List QString) :
    c.loadLines lines = (Update.ofLines lines).apply c := by
  have h := foldl_loadLine_apply lines {} c
  rw [apply_empty] at h
  exact h

theorem apply_apply (u : Update) (c : AppConfig) : u.apply (u.apply c) = u.apply c := by
  obtain ⟨a1, a2, a3, a4, a5, a6, a7, a8⟩ := u
  cases a1 <;> cases a2 <;> cases a3 <;> cases a4 <;> cases a5 <;> cases a6 <;>
    cases a7 <;> cases a8 <;> rfl

theorem assign_interval_minutes (c : AppConfig) (v : QString) :
    (c.assign (qs "interval_minutes") v).intervalMinutes = toInt v := by
  unfold AppConfig.assign
  rw [if_pos rfl]

theorem assign_display_seconds (c : AppConfig) (v : QString) :
    (c.assign (qs "display_seconds") v).displaySeconds = toInt v := by
  unfold AppConfig.assign
  rw [if_neg (by decide), if_pos rfl]

theorem assign_fade_ms (c : AppConfig) (v : QString) :
    (c.assign (qs "fade_ms") v).fadeDurationMs = toInt v := by
  unfold AppConfig.assign
  rw [if_neg (by decide), if_neg (by decide), if_pos rfl]

theorem assign_font_size (c : AppConfig) (v : QString) :
    (c.assign (qs "font_size") v).fontSize = toInt v := by
  unfold AppConfig.assign
  rw [if_neg (by decide), if_neg (by decide), if_neg (by decide), if_neg (by decide),
    if_neg (by decide), if_pos rfl]

theorem assign_ne_interval_minutes (c : AppConfig) (k v : QString)
    (h : k ≠ qs "interval_minutes") :
    (c.assign k v).intervalMinutes = c.intervalMinutes := by
  unfold AppConfig.assign
  rw [if_neg h]
  split_ifs <;> rfl

theorem assign_ne_display_seconds (c : AppConfig) (k v : QString)
    (h : k ≠ qs "display_seconds") :
    (c.assign k v).displaySeconds = c.displaySeconds := by
  unfold AppConfig.assign
  split_ifs <;> rfl

theorem assign_ne_fade_ms (c : AppConfig) (k v : QString) (h : k ≠ qs "fade_ms") :
    (c.assign k v).fadeDurationMs = c.fadeDurationMs := by
  unfold AppConfig.assign
  split_ifs <;> rfl

theorem assign_ne_font_size (c : AppConfig) (k v : QString) (h : k ≠ qs "font_size") :
    (c.assign k v).fontSize = c.fontSize := by
  unfold AppConfig.assign
  split_ifs <;> rfl

theorem loadLines_keeps {α : Type} (f : AppConfig → α) (key : QString)
    (hf : ∀ c k v, k ≠ key → f (AppConfig.assign c k v) = f c)
    (post : List QString)
    (hlater : ∀ l ∈ post, ∀ k v, AppConfig.splitLine l = some (k, v) → k ≠ key)
    (c : AppConfig) : f (c.loadLines post) = f c := by
  unfold AppConfig.loadLines
  induction post generalizing c with
  | nil => rfl
  | cons l ls ih =>
    simp only [List.foldl_cons]
    rw [ih (fun l' hl' => hlater l' (List.mem_cons_of_mem _ hl'))]
    unfold AppConfig.loadLine
    cases hsp : AppConfig.splitLine l with
    | none => rfl
    | some kv =>
      obtain ⟨k, v⟩ := kv
      exact hf c k v (hlater l (List.mem_cons_self _ _) k v hsp)

/-! ## AppConfig::getAlignment -/

/-- C7: `getAlignment` matches the position case-insensitively against the
six names of `positionTable` and returns the pair of the name matched; a
position that matches none of them (among these `Center` in any letter case
and the empty string) yields `AlignCenter`; the result is always one of the
seven valid alignments. -/
theorem getAlignment_case_insensitive (c : AppConfig) :
    (∀ e ∈ positionTable, caseInsensitiveEq c.position e.1 = true → c.getAlignment = e.2) ∧
    ((∀ e ∈ positionTable, caseInsensitiveEq c.position e.1 = false) →
      c.getAlignment = AlignCenter) ∧
    (caseInsensitiveEq c.position (qs "Center") = true → c.getAlignment = AlignCenter) ∧
    (c.position = [] → c.getAlignment = AlignCenter) ∧
    c.getAlignment ∈ validAlignments := by
  refine ⟨?_, ?_, ?_, ?_, ?_⟩
  · intro e he h
    rw [caseInsensitiveEq_iff] at h
    simp only [positionTable, List.mem_cons, List.mem_singleton, List.not_mem_nil,
      or_false] at he
    rcases he with rfl | rfl | rfl | rfl | rfl | rfl <;>
      · simp only [AppConfig.getAlignment, h]
        decide
  · intro h
    have h' : ∀ e ∈ positionTable, toLower c.position ≠ toLower e.1 := by
      intro e he heq
      have := h e he
      rw [(caseInsensitiveEq_iff _ _).mpr heq] at this
      exact Bool.noConfusion this
    have h1 := h' (qs "TopLeft", AlignTop ||| AlignLeft) (by simp [positionTable])
    have h2 := h' (qs "TopCenter", AlignTop ||| AlignHCenter) (by simp [positionTable])
    have h3 := h' (qs "TopRight", AlignTop ||| AlignRight) (by simp [positionTable])
    have h4 := h' (qs "BottomLeft", AlignBottom ||| AlignLeft) (by simp [positionTable])
    have h5 := h' (qs "BottomCenter", AlignBottom ||| AlignHCenter) (by simp [positionTable])
    have h6 := h' (qs "BottomRight", AlignBottom ||| AlignRight) (by simp [positionTable])
    have e1 : toLower (qs "TopLeft") = qs "topleft" := by decide
    have e2 : toLower (qs "TopCenter") = qs "topcenter" := by decide
    have e3 : toLower (qs "TopRight") = qs "topright" := by decide
    have e4 : toLower (qs "BottomLeft") = qs "bottomleft" := by decide
    have e5 : toLower (qs "BottomCenter") = qs "bottomcenter" := by decide
    have e6 : toLower (qs "BottomRight") = qs "bottomright" := by decide
    simp only [e1, e2, e3, e4, e5, e6] at h1 h2 h3 h4 h5 h6
    simp only [AppConfig.getAlignment, if_neg h1, if_neg h2, if_neg h3, if_neg h4, if_neg h5,
      if_neg h6]
  · intro h
    rw [caseInsensitiveEq_iff] at h
    simp only [AppConfig.getAlignment, h]
    decide
  · intro h
    simp only [AppConfig.getAlignment, h]
    decide
  · unfold AppConfig.getAlignment
    simp only []
    split_ifs <;> decide

/-! ## AppConfig::load -/

/-- C8: for every prior configuration and every existing configuration file
(readable or not, any text), loading twice in a row yields the same
configuration and file as loading once. -/
theorem load_idempotent (c : AppConfig) (readable : Bool) (content : QString) :
    let once := c.load (.present readable content)
    once.1.load once.2 = once := by
  cases readable with
  | false => rfl
  | true =>
    simp only [AppConfig.load, if_true]
    rw [loadLines_eq_apply, loadLines_eq_apply, apply_apply]

/-- C9 fails as stated: the value `abc` is not a valid integer, and loading
the line `interval_minutes=abc` leaves `intervalMinutes` at `0`, not at the
default `20`. -/
theorem load_invalid_int_not_default :
    parseInt (qs "abc") = none ∧
    (({} : AppConfig).load (.present true (qs "interval_minutes=abc"))).1.intervalMinutes = 0 ∧
    (({} : AppConfig).load (.present true (qs "interval_minutes=abc"))).1.intervalMinutes ≠ 20 := by
  decide

/-- C9 as amended: when a line of the file, wherever it stands, carries one
of the integer keys with a value text that is not a valid integer, `load`
sets the corresponding field to `0`, the failure value of `QString::toInt`,
not to the default; the field is `0` when `load` returns, provided no later
line of the file assigns the same key again. -/
theorem load_invalid_int_is_zero (c : AppConfig) (content : QString)
    (pre post : List QString) (raw key value : QString)
    (hlines : readLines content = pre ++ raw :: post)
    (hsplit : AppConfig.splitLine raw = some (key, value))
    (hbad : parseInt value = none)
    (hlater : ∀ l ∈ post, ∀ k v, AppConfig.splitLine l = some (k, v) → k ≠ key) :
    (key = qs "interval_minutes" →
      (c.load (.present true content)).1.intervalMinutes = 0) ∧
    (key = qs "display_seconds" →
      (c.load (.present true content)).1.displaySeconds = 0) ∧
    (key = qs "fade_ms" →
      (c.load (.present true content)).1.fadeDurationMs = 0) ∧
    (key = qs "font_size" →
      (c.load (.present true content)).1.fontSize = 0) := by
  have h0 : toInt value = 0 := by simp [toInt, hbad]
  have hl : (c.load (.present true content)).1 =
      ((c.loadLines pre).assign key value).loadLines post := by
    simp [AppConfig.load, hlines, AppConfig.loadLines, List.foldl_append,
      AppConfig.loadLine, hsplit]
  rw [hl]
  refine ⟨?_, ?_, ?_, ?_⟩
  · intro hk
    rw [loadLines_keeps (fun c => c.intervalMinutes) key
      (fun c k v h => assign_ne_interval_minutes c k v (hk ▸ h)) post hlater,
      hk, assign_interval_minutes, h0]
  · intro hk
    rw [loadLines_keeps (fun c => c.displaySeconds) key
      (fun c k v h => assign_ne_display_seconds c k v (hk ▸ h)) post hlater,
      hk, assign_display_seconds, h0]
  · intro hk
    rw [loadLines_keeps (fun c => c.fadeDurationMs) key
      (fun c k v h => assign_ne_fade_ms c k v (hk ▸ h)) post hlater,
      hk, assign_fade_ms, h0]
  · intro hk
    rw [loadLines_keeps (fun c => c.fontSize) key
      (fun c k v h => assign_ne_font_size c k v (hk ▸ h)) post hlater,
      hk, assign_font_size, h0]

/-- Witness of `load_invalid_int_is_zero`: the file
`display_seconds=7` / `font_size = "12x"` / `show_mask=true`. -/
theorem load_invalid_int_is_zero_witness :
    (({} : AppConfig).load
      (.present true
        (qs "display_seconds=7\nfont_size = \"12x\"\nshow_mask=true\n"))).1.fontSize = 0 :=
  (load_invalid_int_is_zero {}
    (qs "display_seconds=7\nfont_size = \"12x\"\nshow_mask=true\n")
    [qs "display_seconds=7"] [qs "show_mask=true"] (qs "font_size = \"12x\"")
    (qs "font_size") (qs "12x")
    (by decide) (by decide) (by decide)
    (by
      intro l hl k v hkv
      rw [List.mem_singleton.mp hl] at hkv
      have h : AppConfig.splitLine (qs "show_mask=true") =
          some (qs "show_mask", qs "true") := by decide
      rw [h] at hkv
      have hk : k = qs "show_mask" := ((Prod.mk.inj (Option.some.inj hkv)).1).symm
      rw [hk]
      decide)).2.2.2 rfl

/-- C10 fails as stated: a controller that loaded `interval_minutes=5` and
then finds the file gone creates the default file, but the configuration the
load returns still has `intervalMinutes = 5`, not `20`. -/
theorem load_missing_keeps_prior :
    ((({} : AppConfig).load (.present true (qs "interval_minutes=5"))).1.load
      (.missing true)).2 = .present true defaultFileText ∧
    ((({} : AppConfig).load (.present true (qs "interval_minutes=5"))).1.load
      (.missing true)).1.intervalMinutes = 5 ∧
    ((({} : AppConfig).load (.present true (qs "interval_minutes=5"))).1.load
      (.missing true)).1.intervalMinutes ≠ 20 := by
  decide

/-- C10 as amended: when the file does not exist, `load` creates it (if it
can be opened for writing) with the documented default text and returns the
prior configuration unchanged. For the default-constructed configuration of
start-up the values returned are therefore the documented defaults, and
loading the created file gives the documented defaults from any prior
configuration (with `imageSource` `/home/`). -/
theorem load_missing_creates_defaults (c c' : AppConfig) :
    c.load (.missing true) = (c, .present true defaultFileText) ∧
    c.load (.missing false) = (c, .missing false) ∧
    (let d := (({} : AppConfig).load (.missing true)).1
     d.intervalMinutes = 20 ∧ d.displaySeconds = 20 ∧ d.fadeDurationMs = 1000 ∧
     d.textColor = qs "#FFFFFF" ∧ d.fontSize = 100 ∧ d.position = qs "Center" ∧
     d.showMask = true) ∧
    (c'.load (c.load (.missing true)).2).1 =
      { intervalMinutes := 20, displaySeconds := 20, fadeDurationMs := 1000,
        imageSource := qs "/home/", textColor := qs "#FFFFFF", fontSize := 100,
        position := qs "Center", showMask := true } := by
  refine ⟨rfl, rfl, by decide, ?_⟩
  simp only [AppConfig.load, if_true]
  rw [loadLines_eq_apply]
  have h : Update.ofLines (readLines defaultFileText) =
      { intervalMinutes := some 20, displaySeconds := some 20, fadeDurationMs := some 1000,
        imageSource := some (qs "/home/"), textColor := some (qs "#FFFFFF"),
        fontSize := some 100, position := some (qs "Center"), showMask := some true } := by
    decide
  rw [h]
  rfl

/-! ## AppController -/

theorem intMul_minutes_exact (m : Int) (h0 : 0 < m) (h1 : m ≤ 35791) :
    intMul (intMul m 60) 1000 = m * 60000 := by
  unfold intMul wrapInt32
  omega

theorem reloadConfig_eq (s : AppController) (t : QTimer) (file : ConfigFile) (now : Nat)
    (ht : s.m_schedulerTimer = some t) :
    (s.reloadConfig file now).1 =
      { s with
        m_config := (s.m_config.load file).1
        m_schedulerTimer :=
          some (if 0 < (s.m_config.load file).1.intervalMinutes then
            t.stop.start (intMul (intMul (s.m_config.load file).1.intervalMinutes 60) 1000) now
          else t.stop) } := by
  simp only [AppController.reloadConfig, AppController.startTimer, ht, gt_iff_lt]
  split_ifs <;> rfl

theorem new_timer_allocated (configPath : QString) (file : ConfigFile) (tray : Bool)
    (now : Nat) :
    ∃ t, (AppController.new configPath file tray now).1.m_schedulerTimer = some t ∧
      t.singleShot = false := by
  have hk : ∀ (s : AppController), (s.setupTray tray).m_schedulerTimer = s.m_schedulerTimer := by
    intro s
    cases tray <;> rfl
  unfold AppController.new
  simp only []
  rw [hk, reloadConfig_eq _ {} file now rfl]
  refine ⟨_, rfl, ?_⟩
  simp only [QTimer.start, QTimer.stop]
  split_ifs <;> rfl

/-- Where the arming decision of `reloadConfig` is right: when the loaded
interval is at most 35791 minutes, the timer runs afterwards if and only if
the interval is positive, then with a period of exactly that many minutes and
a countdown from the time of the reload. -/
theorem reloadConfig_timer_armed_in_range (s : AppController) (t : QTimer)
    (file : ConfigFile) (now : Nat) (ht : s.m_schedulerTimer = some t)
    (hr : (s.m_config.load file).1.intervalMinutes ≤ 35791) :
    ∃ t1, (s.reloadConfig file now).1.m_schedulerTimer = some t1 ∧
      (t1.active = true ↔ 0 < (s.m_config.load file).1.intervalMinutes) ∧
      (0 < (s.m_config.load file).1.intervalMinutes →
        t1.interval = (s.m_config.load file).1.intervalMinutes * 60000 ∧
        t1.startedAt = now) := by
  rw [reloadConfig_eq s t file now ht]
  refine ⟨_, rfl, ?_, ?_⟩
  · by_cases h : 0 < (s.m_config.load file).1.intervalMinutes
    · have hm := intMul_minutes_exact _ h hr
      have hn : ¬ ((s.m_config.load file).1.intervalMinutes * 60000 < 0) := by omega
      simp [if_pos h, QTimer.start, h, hm, hn]
    · simp [if_neg h, QTimer.stop, h]
  · intro h
    have hm := intMul_minutes_exact _ h hr
    have hn : ¬ ((s.m_config.load file).1.intervalMinutes * 60000 < 0) := by omega
    simp [if_pos h, QTimer.start, hm, hn]

/-- C1 evaluated at `interval_minutes=35792`: a controller whose timer runs
reloads that file; the loaded interval is positive, but `startTimer` stops
the timer and hands `QTimer::start` the wrapped product -2147447296, which is
refused, so the timer is not running after `reloadConfig`. -/
theorem reloadConfig_overflow_not_armed :
    (AppController.reloadConfig
      { m_configPath := [], m_schedulerTimer := some { active := true, interval := 1200000 } }
      (.present true (qs "interval_minutes=35792")) 5).1.m_config.intervalMinutes = 35792 ∧
    (AppController.reloadConfig
      { m_configPath := [], m_schedulerTimer := some { active := true, interval := 1200000 } }
      (.present true (qs "interval_minutes=35792")) 5).1.m_schedulerTimer =
        some { active := false, interval := -2147447296 } := by
  decide

/-- C2: a manual firing (`showAllReminders`, also when reached through the
tray action that is connected to it) leaves the scheduler timer exactly as it
was: running or not, its period, and the start of its countdown, whatever
configuration the call reloads. -/
theorem showAllReminders_timer_unchanged (s : AppController) (file : ConfigFile)
    (env : ImageEnv) (screens : List QScreen) (now : Nat) :
    (s.showAllReminders file env screens now).controller.m_schedulerTimer =
      s.m_schedulerTimer ∧
    (s.triggered .showNow file env screens now).controller.m_schedulerTimer =
      s.m_schedulerTimer :=
  ⟨rfl, rfl⟩

theorem config_runSlot (o : ReminderOverlay) (now : Nat) (sl : FinishedSlot) :
    (o.runSlot now sl).m_config = o.m_config ∧ (o.runSlot now sl).m_bgPixmap = o.m_bgPixmap ∧
    (o.runSlot now sl).screen = o.screen := by
  cases sl <;> exact ⟨rfl, rfl, rfl⟩

theorem config_emitFinished (o : ReminderOverlay) (now : Nat) :
    (o.emitFinished now).m_config = o.m_config ∧
    (o.emitFinished now).m_bgPixmap = o.m_bgPixmap ∧
    (o.emitFinished now).screen = o.screen := by
  unfold ReminderOverlay.emitFinished
  generalize o.finishedSlots = l
  induction l generalizing o with
  | nil => exact ⟨rfl, rfl, rfl⟩
  | cons sl l ih =>
    simp only [List.foldl_cons]
    rw [(ih _).1, (ih _).2.1, (ih _).2.2]
    split_ifs
    · exact config_runSlot o now sl
    · exact ⟨rfl, rfl, rfl⟩

theorem config_startFade (o : ReminderOverlay) (now : Nat) :
    (o.startFade now).m_config = o.m_config ∧
    (o.startFade now).m_bgPixmap = o.m_bgPixmap ∧
    (o.startFade now).screen = o.screen := by
  unfold ReminderOverlay.startFade
  split_ifs
  · exact config_emitFinished _ now
  · exact ⟨rfl, rfl, rfl⟩

theorem config_startShow (o : ReminderOverlay) (now : Nat) :
    (o.startShow now).m_config = o.m_config ∧
    (o.startShow now).m_bgPixmap = o.m_bgPixmap ∧
    (o.startShow now).screen = o.screen := by
  unfold ReminderOverlay.startShow
  exact config_startFade _ now

/-- C3: one display cycle creates one overlay per screen, in the order of the
screens: as many overlays as screens, the i-th bound to the i-th screen, every
one built by the constructor from the configuration just loaded and from the
one pixmap selected for the cycle, and started with `startShow`; with no
screen there is no overlay. -/
theorem showAllReminders_one_overlay_per_screen (s : AppController) (file : ConfigFile)
    (env : ImageEnv) (screens : List QScreen) (now : Nat) :
    (s.showAllReminders file env screens now).overlays.length = screens.length ∧
    (s.showAllReminders file env screens now).overlays.map (fun o => o.screen) =
      screens.map some ∧
    (∀ o ∈ (s.showAllReminders file env screens now).overlays,
      o.m_config = (s.m_config.load file).1 ∧
      o.m_bgPixmap = ImageUtils.getRandomPixmap env (s.m_config.load file).1.imageSource) ∧
    (s.showAllReminders file env screens now).overlays =
      screens.map (fun sc =>
        (ReminderOverlay.new (s.m_config.load file).1
          (ImageUtils.getRandomPixmap env (s.m_config.load file).1.imageSource)
          (some sc) now).startShow now) ∧
    (screens = [] → (s.showAllReminders file env screens now).overlays = []) := by
  refine ⟨?_, ?_, ?_, rfl, ?_⟩
  · simp [AppController.showAllReminders]
  · simp only [AppController.showAllReminders, List.map_map]
    apply List.map_congr_left
    intro sc _
    exact (config_startShow _ now).2.2
  · intro o ho
    simp only [AppController.showAllReminders, List.mem_map] at ho
    obtain ⟨sc, _, rfl⟩ := ho
    exact ⟨(config_startShow _ now).1, (config_startShow _ now).2.1⟩
  · intro h
    simp [AppController.showAllReminders, h]

/-- C4 fails as stated: a controller started on `interval_minutes=20` whose
timer fires after the file was changed to `interval_minutes=5` holds a
snapshot with `intervalMinutes = 5` while its timer still runs with the
20 minute period (1200000 ms, not 300000 ms); and a firing that reloads
`interval_minutes=0` leaves the timer running. -/
theorem firing_does_not_rearm :
    ((AppController.new [] (.present true (qs "interval_minutes=20")) false 0).1.schedulerTimeout
      (.present true (qs "interval_minutes=5")) emptyImageEnv [] 1200000
      ).controller.m_config.intervalMinutes = 5 ∧
    ((AppController.new [] (.present true (qs "interval_minutes=20")) false 0).1.schedulerTimeout
      (.present true (qs "interval_minutes=5")) emptyImageEnv [] 1200000
      ).controller.m_schedulerTimer.map (fun t => (t.active, t.interval)) =
        some (true, 1200000) ∧
    intMul (intMul 5 60) 1000 = 300000 ∧
    ((AppController.new [] (.present true (qs "interval_minutes=20")) false 0).1.schedulerTimeout
      (.present true (qs "interval_minutes=0")) emptyImageEnv [] 1200000
      ).controller.m_config.intervalMinutes = 0 ∧
    ((AppController.new [] (.present true (qs "interval_minutes=20")) false 0).1.schedulerTimeout
      (.present true (qs "interval_minutes=0")) emptyImageEnv [] 1200000
      ).controller.m_schedulerTimer.map (fun t => t.active) = some true := by
  decide

theorem fire_timer (s : AppController) (f : AppController.Firing) (t : QTimer)
    (ht : s.m_schedulerTimer = some t) (hrep : t.singleShot = false) :
    ∃ t1, (s.fire f).m_schedulerTimer = some t1 ∧ t1.active = t.active ∧
      t1.interval = t.interval ∧ t1.singleShot = false := by
  unfold AppController.fire
  split_ifs
  · refine ⟨t.timeout f.now, ?_, ?_, ?_, ?_⟩
    · simp only [AppController.schedulerTimeout, AppController.showAllReminders, ht,
        Option.map_some']
    · simp [QTimer.timeout, hrep]
    · simp [QTimer.timeout, hrep]
    · simp [QTimer.timeout, hrep]
  · exact ⟨t, ht, rfl, rfl, hrep⟩

theorem fire_config (s : AppController) (f : AppController.Firing) :
    (s.fire f).m_config = (s.m_config.load f.file).1 := by
  unfold AppController.fire
  split_ifs <;> rfl

theorem fireAll_timer (fs : List AppController.Firing) (s : AppController) (t : QTimer)
    (ht : s.m_schedulerTimer = some t) (hrep : t.singleShot = false) :
    ∃ t1, (s.fireAll fs).m_schedulerTimer = some t1 ∧ t1.active = t.active ∧
      t1.interval = t.interval ∧ t1.singleShot = false := by
  unfold AppController.fireAll
  induction fs generalizing s t with
  | nil => exact ⟨t, ht, rfl, rfl, hrep⟩
  | cons f fs ih =>
    simp only [List.foldl_cons]
    obtain ⟨t1, h1, ha, hi, hs⟩ := fire_timer s f t ht hrep
    obtain ⟨t2, h2, ha2, hi2, hs2⟩ := ih (s.fire f) t1 h1 hs
    exact ⟨t2, h2, ha2.trans ha, hi2.trans hi, hs2⟩

/-- C4 as amended: a firing of the display cycle, timer-driven or manual,
reloads the held snapshot but does not re-arm the scheduler timer: after any
sequence of firings that follows a `reloadConfig`, whatever configurations
the firings reload, the repeating timer is running or stopped, and has the
period, that this `reloadConfig` left. When that `reloadConfig` loaded an
interval of 1 to 35791 minutes the timer still runs with exactly that many
minutes; when it loaded an interval of `0` or less the timer is still
stopped. -/
theorem firing_keeps_reload_period (s : AppController) (t : QTimer) (f1 : ConfigFile)
    (t1 : Nat) (fs : List AppController.Firing) (f : AppController.Firing)
    (ht : s.m_schedulerTimer = some t) (hrep : t.singleShot = false) :
    ((s.reloadConfig f1 t1).1.fireAll (fs ++ [f])).m_config =
      (((s.reloadConfig f1 t1).1.fireAll fs).m_config.load f.file).1 ∧
    ∃ t2 t3, (s.reloadConfig f1 t1).1.m_schedulerTimer = some t2 ∧
      ((s.reloadConfig f1 t1).1.fireAll fs).m_schedulerTimer = some t3 ∧
      t3.active = t2.active ∧ t3.interval = t2.interval ∧
      (0 < (s.m_config.load f1).1.intervalMinutes →
        (s.m_config.load f1).1.intervalMinutes ≤ 35791 →
        t3.active = true ∧ t3.interval = (s.m_config.load f1).1.intervalMinutes * 60000) ∧
      ((s.m_config.load f1).1.intervalMinutes ≤ 0 → t3.active = false) := by
  refine ⟨?_, ?_⟩
  · simp only [AppController.fireAll, List.foldl_append, List.foldl_cons, List.foldl_nil]
    exact fire_config _ f
  · have hs2 : (if 0 < (s.m_config.load f1).1.intervalMinutes then
          t.stop.start (intMul (intMul (s.m_config.load f1).1.intervalMinutes 60) 1000) t1
        else t.stop).singleShot = false := by
      simp only [QTimer.start, QTimer.stop]
      split_ifs <;> exact hrep
    have h2 : (s.reloadConfig f1 t1).1.m_schedulerTimer =
        some (if 0 < (s.m_config.load f1).1.intervalMinutes then
          t.stop.start (intMul (intMul (s.m_config.load f1).1.intervalMinutes 60) 1000) t1
        else t.stop) := by
      rw [reloadConfig_eq s t f1 t1 ht]
    obtain ⟨t3, h3, ha, hi, -⟩ := fireAll_timer fs _ _ h2 hs2
    refine ⟨_, t3, h2, h3, ha, hi, ?_, ?_⟩
    · intro hp hr
      have hm := intMul_minutes_exact _ hp hr
      have hn : ¬ ((s.m_config.load f1).1.intervalMinutes * 60000 < 0) := by omega
      rw [ha, hi]
      simp [if_pos hp, QTimer.start, hm, hn]
    · intro hz
      have hn : ¬ 0 < (s.m_config.load f1).1.intervalMinutes := by omega
      rw [ha]
      simp [if_neg hn, QTimer.stop]

/-- Witness of `firing_keeps_reload_period`: reload on `interval_minutes=20`,
then a manual firing that reloads `interval_minutes=5` and a timer firing
that reloads `interval_minutes=0`. -/
theorem firing_keeps_reload_period_witness :
    ∃ t3, ((AppController.reloadConfig
          { m_configPath := [], m_schedulerTimer := some {} }
          (.present true (qs "interval_minutes=20")) 0).1.fireAll
        [⟨false, .present true (qs "interval_minutes=5"), emptyImageEnv, [], 9⟩,
         ⟨true, .present true (qs "interval_minutes=0"), emptyImageEnv, [], 1200000⟩]
        ).m_schedulerTimer = some t3 ∧
      t3.active = true ∧ t3.interval = 1200000 :=
  have h := (firing_keeps_reload_period
    { m_configPath := [], m_schedulerTimer := some {} } {}
    (.present true (qs "interval_minutes=20")) 0
    [⟨false, .present true (qs "interval_minutes=5"), emptyImageEnv, [], 9⟩,
     ⟨true, .present true (qs "interval_minutes=0"), emptyImageEnv, [], 1200000⟩]
    ⟨false, .present true (qs "interval_minutes=5"), emptyImageEnv, [], 9⟩ rfl rfl).2
  h.elim fun _ h2 => h2.elim fun t3 h3 =>
    ⟨t3, h3.2.1, (h3.2.2.2.2.1 (by decide) (by decide)).1,
      (h3.2.2.2.2.1 (by decide) (by decide)).2.trans (by decide)⟩

/-- C5 evaluated at `interval_minutes=35792`: the loaded interval is 35792
minutes, that is 2147520000 ms, but `startTimer` arms the timer with the
wrapped 32-bit product, -2147447296 ms; at 71583 minutes the wrapped product
is 12704 ms. -/
theorem startTimer_period_overflow :
    (AppController.new [] (.present true (qs "interval_minutes=35792")) false 0
      ).1.m_config.intervalMinutes = 35792 ∧
    (35792 : Int) * 60 * 1000 = 2147520000 ∧
    (AppController.new [] (.present true (qs "interval_minutes=35792")) false 0
      ).1.m_schedulerTimer.map (fun t => t.interval) = some (-2147447296) ∧
    intMul (intMul 71583 60) 1000 = 12704 := by
  decide

/-! ## ReminderOverlay -/

theorem stuck_deliver (o : ReminderOverlay) (now : Nat) (e : ReminderOverlay.Event)
    (h : o.Stuck) : (o.deliver now e).Stuck := by
  obtain ⟨h1, h2, h3, h4, h5, h6⟩ := h
  cases e
  · simp only [ReminderOverlay.deliver]
    split_ifs
    · exact ⟨h1, h2, h3, h4, h5, h6⟩
    · exact ⟨h1, h2, h3, h4, h5, h6⟩
  · simp only [ReminderOverlay.deliver, h5, Bool.and_false]
    exact ⟨h1, h2, h3, h4, h5, h6⟩
  · simp only [ReminderOverlay.deliver, h2, Bool.and_false]
    exact ⟨h1, h2, h3, h4, h5, h6⟩

theorem stuck_run (es : List (Nat × ReminderOverlay.Event)) (o : ReminderOverlay)
    (h : o.Stuck) : (o.run es).Stuck := by
  unfold ReminderOverlay.run
  induction es generalizing o with
  | nil => exact h
  | cons e es ih =>
    simp only [List.foldl_cons]
    exact ih _ (stuck_deliver o e.1 e.2 h)

/-- C6 evaluated at `fade_ms=0`: the file loads `fadeDurationMs = 0`; in
`startShow` the animation finishes inside `start()`, before the lambda is
connected, so after `startShow` and after every sequence of events the
overlay is shown at full opacity with the animation at rest, the hold timer
is not running, and the overlay is not closed: completion of the fade-in has
not armed the hold timer, and `Holding` is never left. At
`display_seconds=2147484` the fade-in completes normally but the lambda hands
the hold timer the wrapped product -2147483296, which is refused. -/
theorem overlay_zero_fade_never_holds (pix : QPixmap) (screen : Option QScreen) (t0 : Nat)
    (es : List (Nat × ReminderOverlay.Event)) :
    (({} : AppConfig).load (.present true (qs "fade_ms=0"))).1.fadeDurationMs = 0 ∧
    (((ReminderOverlay.new (({} : AppConfig).load (.present true (qs "fade_ms=0"))).1
      pix screen t0).startShow t0).run es).m_hideTimer.active = false ∧
    (((ReminderOverlay.new (({} : AppConfig).load (.present true (qs "fade_ms=0"))).1
      pix screen t0).startShow t0).run es).m_currentOpacity = 1 ∧
    (((ReminderOverlay.new (({} : AppConfig).load (.present true (qs "fade_ms=0"))).1
      pix screen t0).startShow t0).run es).fullScreen = true ∧
    (((ReminderOverlay.new (({} : AppConfig).load (.present true (qs "fade_ms=0"))).1
      pix screen t0).startShow t0).run es).phase = .Holding ∧
    (((ReminderOverlay.new
        (({} : AppConfig).load (.present true (qs "display_seconds=2147484"))).1
        .null none 0).startShow 0).run [(1000, .fadeFinished)]).m_hideTimer =
      { active := false, interval := -2147483296, singleShot := true } := by
  have hs : ((ReminderOverlay.new (({} : AppConfig).load (.present true (qs "fade_ms=0"))).1
      pix screen t0).startShow t0).Stuck := ⟨rfl, rfl, rfl, rfl, rfl, rfl⟩
  obtain ⟨h1, h2, h3, -, h5, h6⟩ := stuck_run es _ hs
  refine ⟨by decide, h5, h3, h6, ?_, by decide⟩
  simp [ReminderOverlay.phase, h1, h2]

theorem intMul_seconds_exact (d : Int) (h0 : 0 ≤ d) (h1 : d ≤ 2147483) :
    intMul d 1000 = d * 1000 := by
  unfold intMul wrapInt32
  omega

theorem shaped_startShow (cfg : AppConfig) (pix : QPixmap) (screen : Option QScreen)
    (t0 : Nat) (hfade : cfg.fadeDurationMs ≠ 0)
    (hhold : 0 ≤ intMul cfg.displaySeconds 1000) :
    ((ReminderOverlay.new cfg pix screen t0).startShow t0).Shaped ∧
    ((ReminderOverlay.new cfg pix screen t0).startShow t0).phase = .FadingIn := by
  have hd : (({} : QPropertyAnimation).setDuration cfg.fadeDurationMs).duration ≠ 0 := by
    unfold QPropertyAnimation.setDuration
    split_ifs
    · decide
    · exact hfade
  simp [ReminderOverlay.Shaped, ReminderOverlay.startShow, ReminderOverlay.startFade,
    ReminderOverlay.new, ReminderOverlay.phase, QPropertyAnimation.start,
    QPropertyAnimation.stop, QPropertyAnimation.setStartValue,
    QPropertyAnimation.setEndValue, QTimer.start, QTimer.setSingleShot, hd, hhold]

theorem shaped_step (o : ReminderOverlay) (now : Nat) (e : ReminderOverlay.Event)
    (h : o.Shaped) :
    (o.deliver now e).Shaped ∧
    ((o.deliver now e).phase = o.phase ∨
      (o.phase = .FadingIn ∧ e = .fadeFinished ∧ (o.deliver now e).phase = .Holding) ∨
      (o.phase = .Holding ∧ e = .hideTimeout ∧ (o.deliver now e).phase = .FadingOut) ∨
      (o.phase = .FadingOut ∧ e = .fadeFinished ∧ (o.deliver now e).phase = .Closed)) ∧
    (o.phase = .FadingIn →
      o.m_hideTimer.active = false ∧
      (o.deliver now .fadeFinished).phase = .Holding ∧
      (o.deliver now .fadeFinished).m_hideTimer =
        { active := true, interval := intMul o.m_config.displaySeconds 1000,
          singleShot := true, startedAt := now }) ∧
    (o.phase = .Holding →
      o.m_hideTimer.active = true ∧
      o.m_hideTimer.interval = intMul o.m_config.displaySeconds 1000 ∧
      (o.deliver now .hideTimeout).phase = .FadingOut ∧
      (o.deliver now .hideTimeout).m_hideTimer.active = false) ∧
    (o.phase = .FadingOut →
      (o.deliver now .fadeFinished).phase = .Closed ∧
      (o.deliver now .fadeFinished).m_clockTimer.active = false) ∧
    (o.m_clockTimer.active = true ↔ o.phase ≠ .Closed) := by
  obtain ⟨cfg, pix, scr, geo, ⟨ca, ci, cs, ct⟩, ⟨ha, hi, hs, ht⟩, ⟨ad, av, ae, ar⟩, op,
    slots, fs, cl⟩ := o
  simp only [ReminderOverlay.Shaped] at h
  obtain ⟨hd, hh0, h⟩ := h
  have hh : ¬ (intMul cfg.displaySeconds 1000 < 0) := not_lt.mpr hh0
  rcases h with h | h | h | h
  · obtain ⟨rfl, rfl, rfl, rfl, rfl, rfl, rfl, rfl⟩ := h
    cases e <;>
      simp [ReminderOverlay.deliver, ReminderOverlay.phase, ReminderOverlay.emitFinished,
        ReminderOverlay.runSlot, ReminderOverlay.startFadeOut, ReminderOverlay.startFade,
        ReminderOverlay.Shaped, QTimer.timeout, QTimer.start,
        QTimer.stop, QPropertyAnimation.stop, QPropertyAnimation.start,
        QPropertyAnimation.setStartValue, QPropertyAnimation.setEndValue, hd, hh, hh0]
  · obtain ⟨rfl, rfl, rfl, rfl, rfl, rfl, rfl, rfl, rfl⟩ := h
    cases e <;>
      simp [ReminderOverlay.deliver, ReminderOverlay.phase, ReminderOverlay.emitFinished,
        ReminderOverlay.runSlot, ReminderOverlay.startFadeOut, ReminderOverlay.startFade,
        ReminderOverlay.Shaped, QTimer.timeout, QTimer.start,
        QTimer.stop, QPropertyAnimation.stop, QPropertyAnimation.start,
        QPropertyAnimation.setStartValue, QPropertyAnimation.setEndValue, hd, hh, hh0]
  · obtain ⟨rfl, rfl, rfl, rfl, rfl, rfl, rfl⟩ := h
    cases e <;>
      simp [ReminderOverlay.deliver, ReminderOverlay.phase, ReminderOverlay.emitFinished,
        ReminderOverlay.runSlot, ReminderOverlay.startFadeOut, ReminderOverlay.startFade,
        ReminderOverlay.Shaped, QTimer.timeout, QTimer.start,
        QTimer.stop, QPropertyAnimation.stop, QPropertyAnimation.start,
        QPropertyAnimation.setStartValue, QPropertyAnimation.setEndValue, hd, hh, hh0]
  · obtain ⟨rfl, rfl⟩ := h
    cases e <;>
      simp [ReminderOverlay.deliver, ReminderOverlay.phase, ReminderOverlay.emitFinished,
        ReminderOverlay.runSlot, ReminderOverlay.startFadeOut, ReminderOverlay.startFade,
        ReminderOverlay.Shaped, QTimer.timeout, QTimer.start,
        QTimer.stop, QPropertyAnimation.stop, QPropertyAnimation.start,
        QPropertyAnimation.setStartValue, QPropertyAnimation.setEndValue, hd, hh, hh0]

theorem shaped_run (es : List (Nat × ReminderOverlay.Event)) (o : ReminderOverlay)
    (h : o.Shaped) : (o.run es).Shaped ∧ (o.run es).m_config = o.m_config := by
  unfold ReminderOverlay.run
  induction es generalizing o with
  | nil => exact ⟨h, rfl⟩
  | cons e es ih =>
    simp only [List.foldl_cons]
    have hc : (o.deliver e.1 e.2).m_config = o.m_config := by
      cases e.2 <;> simp only [ReminderOverlay.deliver] <;> split_ifs <;>
        first
        | rfl
        | exact (config_emitFinished _ _).1
        | exact ((config_startFade _ _).1)
    exact ⟨(ih _ (shaped_step o e.1 e.2 h).1).1, (ih _ (shaped_step o e.1 e.2 h).1).2.trans hc⟩

/-- Where the life cycle of C6 is right: for a configuration with a fade
duration other than `0` and `0 ≤ displaySeconds ≤ 2147483` (`0` included), an
overlay started by `startShow` begins in `FadingIn` and, whatever events the
event loop delivers, changes state only by the moves `FadingIn → Holding` (on
completion of the fade animation), `Holding → FadingOut` (on expiry of the
hold timer) and `FadingOut → Closed` (on completion of the fade animation).
Completion of the fade-in arms the single-shot hold timer with exactly
`displaySeconds` seconds; while holding, the hold timer is running and its
expiry starts the fade-out; the overlay is closed only from `FadingOut`, and
the clock tick runs exactly as long as the overlay is not closed. -/
theorem overlay_lifecycle_in_range (cfg : AppConfig) (pix : QPixmap)
    (screen : Option QScreen) (t0 : Nat) (es : List (Nat × ReminderOverlay.Event))
    (now : Nat) (e : ReminderOverlay.Event)
    (hfade : cfg.fadeDurationMs ≠ 0) (hlo : 0 ≤ cfg.displaySeconds)
    (hhi : cfg.displaySeconds ≤ 2147483) :
    ((ReminderOverlay.new cfg pix screen t0).startShow t0).phase = .FadingIn ∧
    ∀ o, o = ((ReminderOverlay.new cfg pix screen t0).startShow t0).run es →
    ((o.deliver now e).phase = o.phase ∨
      (o.phase = .FadingIn ∧ e = .fadeFinished ∧ (o.deliver now e).phase = .Holding) ∨
      (o.phase = .Holding ∧ e = .hideTimeout ∧ (o.deliver now e).phase = .FadingOut) ∨
      (o.phase = .FadingOut ∧ e = .fadeFinished ∧ (o.deliver now e).phase = .Closed)) ∧
    ((o.deliver now e).phase = .Closed → o.phase = .Closed ∨ o.phase = .FadingOut) ∧
    (o.phase = .FadingIn →
      o.m_hideTimer.active = false ∧
      (o.deliver now .fadeFinished).phase = .Holding ∧
      (o.deliver now .fadeFinished).m_hideTimer =
        { active := true, interval := cfg.displaySeconds * 1000,
          singleShot := true, startedAt := now }) ∧
    (o.phase = .Holding →
      o.m_hideTimer.active = true ∧
      o.m_hideTimer.interval = cfg.displaySeconds * 1000 ∧
      (o.deliver now .hideTimeout).phase = .FadingOut ∧
      (o.deliver now .hideTimeout).m_hideTimer.active = false) ∧
    (o.phase = .FadingOut →
      (o.deliver now .fadeFinished).phase = .Closed ∧
      (o.deliver now .fadeFinished).m_clockTimer.active = false) ∧
    (o.m_clockTimer.active = true ↔ o.phase ≠ .Closed) := by
  have hx := intMul_seconds_exact cfg.displaySeconds hlo hhi
  have hhold : 0 ≤ intMul cfg.displaySeconds 1000 := by omega
  obtain ⟨hs0, hp0⟩ := shaped_startShow cfg pix screen t0 hfade hhold
  refine ⟨hp0, ?_⟩
  intro o ho
  obtain ⟨hs, hc⟩ := shaped_run es _ hs0
  rw [← ho] at hs hc
  have hc2 : o.m_config = cfg := hc.trans (config_startShow _ t0).1
  obtain ⟨-, h1, h2, h3, h4, h5⟩ := shaped_step o now e hs
  rw [hc2, hx] at h2 h3
  refine ⟨h1, ?_, h2, h3, h4, h5⟩
  intro hcl
  rcases h1 with h | h | h | h
  · exact Or.inl (h ▸ hcl)
  · rw [h.2.2] at hcl
    exact absurd hcl (by decide)
  · rw [h.2.2] at hcl
    exact absurd hcl (by decide)
  · exact Or.inr h.1

end Reminder
